import Mathlib

/-!
# Verification of the multi-device code-upgrade engine

Shallow embedding of `packages/frontend/xaospy/scripts/code_upgrade/run.py`.

Pure algorithms (version parsing/comparison, similar-image search, result
aggregation) are translated directly.  Effectful device I/O (PyEZ sessions,
ping/SSH probes) is abstracted into a `DeviceEnv` oracle giving the outcome of
each device interaction; the control flow, state updates and progress events of
the workflow are translated faithfully from the source.  Wall-clock timing
fields (`start_time`, `end_time`, `step_durations`) and event payload strings
are outside the model; sleeps are unobservable.
-/

namespace CodeUpgrade

/-! ## Section 6 of run.py: version comparison and analysis engine -/

/-- The five numeric components extracted from a Junos version string. -/
abbrev Tup5 := Nat × Nat × Nat × Nat × Nat

/-- `int` of a run of decimal digits (Python `int(n)` on a `\d+` match). -/
def digitsToNat (cs : List Char) : Nat :=
  cs.foldl (fun n c => 10 * n + (c.toNat - '0'.toNat)) 0

/-- `version_string.replace("Junos: ", "")`: remove every occurrence of the
literal `"Junos: "`, scanning left to right without rescanning removed text
(the semantics of Python `str.replace` with an empty replacement). -/
def removeJunosTag : List Char → List Char
  | 'J' :: 'u' :: 'n' :: 'o' :: 's' :: ':' :: ' ' :: rest => removeJunosTag rest
  | c :: rest => c :: removeJunosTag rest
  | [] => []

/-- Python `str.strip()` on ASCII input: drop whitespace from both ends. -/
def trimChars (cs : List Char) : List Char :=
  ((cs.dropWhile Char.isWhitespace).reverse.dropWhile Char.isWhitespace).reverse

/-- The `clean_version` computed by `parse_junos_version`. -/
def cleanVersion (s : String) : List Char :=
  trimChars (removeJunosTag s.toList)

/-- Deterministic transcription of
`re.match of the version pattern against clean`.

`re.match` anchors at the start and accepts any prefix; since every literal
following a `\d+` is a non-digit, the greedy maximal digit run is the unique
candidate for each group, and since everything after group 3 is optional the
two optional groups each either consume `-S`/`.` plus a nonempty digit run or
consume nothing.  The trailing `(?:-\w+)?` captures nothing and cannot affect
the result of a prefix match, so it is not represented. -/
def matchJunosPattern (cs : List Char) : Option Tup5 :=
  let d1 := cs.takeWhile Char.isDigit
  let r1 := cs.dropWhile Char.isDigit
  if d1 = [] then none else
  match r1 with
  | '.' :: r2 =>
    let d2 := r2.takeWhile Char.isDigit
    let r3 := r2.dropWhile Char.isDigit
    if d2 = [] then none else
    match r3 with
    | 'R' :: r4 =>
      let d3 := r4.takeWhile Char.isDigit
      let r5 := r4.dropWhile Char.isDigit
      if d3 = [] then none else
      let svc : Option (List Char) × List Char :=
        match r5 with
        | '-' :: 'S' :: r5a =>
          let d4 := r5a.takeWhile Char.isDigit
          if d4 = [] then (none, r5) else (some d4, r5a.dropWhile Char.isDigit)
        | _ => (none, r5)
      let pat : Option (List Char) :=
        match svc.2 with
        | '.' :: r6a =>
          let d5 := r6a.takeWhile Char.isDigit
          if d5 = [] then none else some d5
        | _ => none
      some (digitsToNat d1, digitsToNat d2, digitsToNat d3,
            (svc.1.map digitsToNat).getD 0, (pat.map digitsToNat).getD 0)
    | _ => none
  | _ => none

/-- `re.findall of digit runs in clean`: the maximal runs of digits, in order. -/
def digitRunsAux : List Char → List Char → List (List Char)
  | [], acc => if acc = [] then [] else [acc.reverse]
  | c :: rest, acc =>
    if c.isDigit then digitRunsAux rest (c :: acc)
    else if acc = [] then digitRunsAux rest []
    else acc.reverse :: digitRunsAux rest []

/-- All maximal digit runs of a character list. -/
def digitRuns (cs : List Char) : List (List Char) :=
  digitRunsAux cs []

/-- `tuple(int(n) for n in numbers[:5]) + (0,) * (5 - len(numbers))`:
the first up-to-five numbers padded with zeros to a 5-tuple. -/
def padFive : List Nat → Tup5
  | [a, b, c, d, e] => (a, b, c, d, e)
  | [a, b, c, d] => (a, b, c, d, 0)
  | [a, b, c] => (a, b, c, 0, 0)
  | [a, b] => (a, b, 0, 0, 0)
  | [a] => (a, 0, 0, 0, 0)
  | _ => (0, 0, 0, 0, 0)

/-- `parse_junos_version` (run.py lines 256-298).  Total: the Python function
catches its own exceptions (none can in fact fire on the pure computation) and
falls back to the zero tuple. -/
def parse_junos_version (version_string : String) : Tup5 :=
  if version_string = "" then (0, 0, 0, 0, 0) else
  let clean := cleanVersion version_string
  match matchJunosPattern clean with
  | some t => t
  | none =>
    let numbers := digitRuns clean
    if 3 ≤ numbers.length then padFive ((numbers.take 5).map digitsToNat)
    else (0, 0, 0, 0, 0)

/-- Python tuple `<` on two 5-tuples of ints: lexicographic. -/
def tupleLt (a b : Tup5) : Bool :=
  decide (a.1 < b.1) ||
  (decide (a.1 = b.1) &&
   (decide (a.2.1 < b.2.1) ||
    (decide (a.2.1 = b.2.1) &&
     (decide (a.2.2.1 < b.2.2.1) ||
      (decide (a.2.2.1 = b.2.2.1) &&
       (decide (a.2.2.2.1 < b.2.2.2.1) ||
        (decide (a.2.2.2.1 = b.2.2.2.1) &&
         decide (a.2.2.2.2 < b.2.2.2.2))))))))

/-- The `VersionAction` enum. -/
inductive VersionAction
  | upgrade
  | downgrade
  | maintain
  | unknown
deriving DecidableEq, Repr

/-- `compare_junos_versions` (run.py lines 300-322).  The Python `try` can
never fail on the pure tuple comparison, so the `UNKNOWN` branch is
unreachable and the embedding is the total three-way comparison: the function
never raises to its caller. -/
def compare_junos_versions (current target : String) : VersionAction :=
  let current_parsed := parse_junos_version current
  let target_parsed := parse_junos_version target
  if current_parsed = target_parsed then VersionAction.maintain
  else if tupleLt current_parsed target_parsed then VersionAction.upgrade
  else VersionAction.downgrade

/-- `analyze_version_compatibility` result (run.py lines 324-363). -/
structure VersionAnalysis where
  action : VersionAction
  current_parsed : Tup5
  target_parsed : Tup5
  warnings : List String
  recommendations : List String
deriving DecidableEq, Repr

/-- `analyze_version_compatibility` (run.py lines 324-363). -/
def analyze_version_compatibility (current target : String) : VersionAnalysis :=
  let action := compare_junos_versions current target
  let cp := parse_junos_version current
  let tp := parse_junos_version target
  let majorWarnings : List String :=
    if cp.1 ≠ tp.1 then
      if action = VersionAction.upgrade then
        ["Major version upgrade (" ++ toString cp.1 ++ " -> " ++ toString tp.1 ++
         ") may require configuration updates"]
      else
        ["Major version downgrade (" ++ toString cp.1 ++ " -> " ++ toString tp.1 ++
         ") may cause compatibility issues"]
    else []
  let version_gap := if cp.2.1 ≤ tp.2.1 then tp.2.1 - cp.2.1 else cp.2.1 - tp.2.1
  let gapWarnings : List String :=
    if 2 < version_gap then
      ["Large version gap detected (" ++ toString version_gap ++ " minor versions)"]
    else []
  let gapRecs : List String :=
    if 2 < version_gap then
      ["Consider intermediate upgrade steps for complex environments"]
    else []
  let downgradeRecs : List String :=
    if action = VersionAction.downgrade then
      ["Verify all features used are supported in target version",
       "Review configuration compatibility before proceeding",
       "Consider backup of current configuration"]
    else []
  { action := action
    current_parsed := cp
    target_parsed := tp
    warnings := majorWarnings ++ gapWarnings
    recommendations := gapRecs ++ downgradeRecs }

/-! ## Section 7 of run.py: similar-image search -/

/-- Is a character one of the separators of `re.split on the class of dash, underscore and dot`. -/
def isSepChar (c : Char) : Bool :=
  c = '-' || c = '_' || c = '.'

/-- `re.split on the class of dash, underscore and dot`: split at every separator occurrence, keeping
empty segments (`re.split` on an empty string yields `[""]`). -/
def splitTokens : List Char → List (List Char)
  | [] => [[]]
  | c :: rest =>
    if isSepChar c then [] :: splitTokens rest
    else
      match splitTokens rest with
      | t :: ts => (c :: t) :: ts
      | [] => [[c]]

/-- The token list of a filename as used by `find_similar_images`:
lower-cased, split on `-`, `_`, `.`. -/
def imageTokens (s : String) : List (List Char) :=
  splitTokens (s.toList.map Char.toLower)

/-- How many of the target tokens appear among the candidate tokens
(`sum(1 for part in target_parts if part in image_parts)`). -/
def tokenMatches (target image : String) : Nat :=
  ((imageTokens target).filter (fun part => (imageTokens image).contains part)).length

/-- `find_similar_images` (run.py lines 473-492): keep a candidate when at
least `min(3, len(target_parts) // 2)` of the target tokens appear among
its tokens. -/
def find_similar_images (target_image : String) (available_images : List String) :
    List String :=
  available_images.filter (fun image =>
    decide (min 3 ((imageTokens target_image).length / 2) ≤ tokenMatches target_image image))

/-- Modelled from the spec wording, for comparison with `find_similar_images`:
the claim asks for candidates in which "at least half of the target tokens,
and never fewer than 3 tokens, appear among the candidate tokens". -/
def find_similar_images_claim (target_image : String) (available_images : List String) :
    List String :=
  available_images.filter (fun image =>
    decide ((imageTokens target_image).length / 2 ≤ tokenMatches target_image image ∧
            3 ≤ tokenMatches target_image image))


/-! ## Sections 4 and 10 of run.py: data model and per-device workflow

Device I/O is abstracted into a `DeviceEnv` oracle: each field gives the
outcome the device would produce for the corresponding interaction.  The
workflow records every interaction it performs in a `Call` trace and every
progress event it emits in an `Event` trace (messages, durations and payloads
of events are not modelled; the step number and status are). -/

/-- `STEPS_PER_DEVICE` (run.py line 106). -/
def steps_per_device : Nat := 6

/-- `DEFAULT_REBOOT_TIMEOUT` (run.py line 109). -/
def default_reboot_timeout : Nat := 900

/-- The `UpgradePhase` enum. -/
inductive UpgradePhase
  | pending
  | connecting
  | validatingImage
  | analyzingVersion
  | installing
  | rebooting
  | probing
  | verifying
  | completed
  | failed
  | skipped
  | cancelled
deriving DecidableEq, Repr

/-- The `DeviceStatus` dataclass (run.py lines 175-210), without the
wall-clock timing fields. -/
structure DeviceStatus where
  hostname : String
  target_version : String
  phase : UpgradePhase := UpgradePhase.pending
  message : String := "Waiting to start"
  initial_version : Option String := none
  final_version : Option String := none
  version_action : VersionAction := VersionAction.unknown
  error : Option String := none
  error_type : Option String := none
  success : Bool := false
  warnings : List String := []
deriving DecidableEq, Repr

/-- The status field of a `STEP_COMPLETE` progress event. -/
inductive EventStatus
  | completed
  | failed
  | skipped
deriving DecidableEq, Repr

/-- A progress event, reduced to its type, step number and status (the
payload and message fields of `send_progress` are not modelled). -/
inductive Event
  | stepStart (step : Nat)
  | stepComplete (step : Nat) (status : EventStatus)
  | subStep (step : Nat)
  | versionWarning (step : Nat)
deriving DecidableEq, Repr

/-- Is an event a `STEP_COMPLETE` event. -/
def isStepComplete : Event → Bool
  | Event.stepComplete _ _ => true
  | _ => false

/-- One device interaction performed by the workflow. -/
inductive Call
  | connect
  | validateImage
  | preChecks
  | validatePackage
  | installPackage
  | reboot
  | pingProbe (k : Nat)
  | sshProbe (k : Nat)
  | verifySession (k : Nat)
deriving DecidableEq, Repr

/-- The exception hierarchy of run.py section 3, as raised by the workflow. -/
inductive UpErr
  | connectionError (message : String)
  | imageValidationError (message : String)
  | versionAnalysisError (message : String)
  | installationError (message : String)
  | rebootTimeoutError (message : String)
  | versionMismatchError (message : String)
  | policyViolationError (message : String)
deriving DecidableEq, Repr

/-- `type(error).__name__` for the embedded exceptions. -/
def UpErr.typeName : UpErr → String
  | UpErr.connectionError _ => "ConnectionError"
  | UpErr.imageValidationError _ => "ImageValidationError"
  | UpErr.versionAnalysisError _ => "VersionAnalysisError"
  | UpErr.installationError _ => "InstallationError"
  | UpErr.rebootTimeoutError _ => "RebootTimeoutError"
  | UpErr.versionMismatchError _ => "VersionMismatchError"
  | UpErr.policyViolationError _ => "PolicyViolationError"

/-- `str(error)` for the embedded exceptions. -/
def UpErr.text : UpErr → String
  | UpErr.connectionError m => m
  | UpErr.imageValidationError m => m
  | UpErr.versionAnalysisError m => m
  | UpErr.installationError m => m
  | UpErr.rebootTimeoutError m => m
  | UpErr.versionMismatchError m => m
  | UpErr.policyViolationError m => m

/-- Python `f"{v}"` on an `Optional[str]`. -/
def optVersion : Option String → String
  | none => "None"
  | some v => v

/-- The outcome oracle for one device: each field is the result the device
yields for the corresponding interaction of the workflow.  `ping k` and
`ssh k` are the probe outcomes at monitoring iteration `k`; `verifySession a`
is the reported version (or a session error) at verification attempt `a`. -/
structure DeviceEnv where
  connect : Except String String
  validateImage : Except String Unit
  validatePackage : Bool
  installResult : Bool
  ping : Nat → Bool
  ssh : Nat → Bool
  verifySession : Nat → Except String (Option String)

/-! ## Section 9 of run.py: reboot monitoring -/

/-- `initial_wait` of `monitor_device_reboot` (run.py line 610): the fixed
grace period slept before polling begins.  Sleeping is unobservable in the
embedding; the constant records the value. -/
def monitor_initial_wait : Nat := 60

/-- `interval` of `monitor_device_reboot` (run.py line 615): seconds between
polling iterations; iteration `k` runs at elapsed time `interval * k`. -/
def monitor_interval : Nat := 15

/-- The `monitoring_result` dictionary of `monitor_device_reboot`. -/
structure MonitoringResult where
  reboot_successful : Bool := false
  total_downtime : Nat := 0
  ping_restored_time : Option Nat := none
  ssh_restored_time : Option Nat := none
  phases : List String := []
deriving DecidableEq, Repr

/-- Output of the monitoring loop: success flag, telemetry, events, probes. -/
structure MonitorGoOut where
  ok : Bool
  res : MonitoringResult
  events : List Event
  calls : List Call
deriving DecidableEq, Repr

/-- The polling loop of `monitor_device_reboot` (run.py lines 623-662),
idealised so that iteration `k` happens at elapsed time `monitor_interval * k`
(probe durations are not modelled).  `fuel` bounds the recursion and is chosen
large enough by the wrapper that the loop always exits by its own condition. -/
def monitorGo (ping ssh : Nat → Bool) (step timeout : Nat) :
    Nat → Nat → Bool → Nat → MonitoringResult → MonitorGoOut
  | 0, _, _, _, res =>
    { ok := false, res := { res with total_downtime := timeout },
      events := [Event.stepComplete step EventStatus.failed], calls := [] }
  | fuel + 1, k, lastPing, sshAttempts, res =>
    if monitor_interval * k < timeout then
      let elapsed := monitor_interval * k
      let pingSuccess := ping k
      let res1 :=
        if pingSuccess && !lastPing then
          { res with
              ping_restored_time := some elapsed,
              phases := res.phases ++
                ["Ping restored after " ++ toString elapsed ++ "s"] }
        else res
      let ev1 : List Event :=
        if pingSuccess && !lastPing then [Event.subStep step] else []
      if pingSuccess then
        if ssh k then
          { ok := true,
            res := { res1 with
                       ssh_restored_time := some elapsed,
                       reboot_successful := true,
                       total_downtime := elapsed,
                       phases := res1.phases ++
                         ["SSH restored after " ++ toString elapsed ++ "s"] },
            events := ev1 ++ [Event.stepComplete step EventStatus.completed],
            calls := [Call.pingProbe k, Call.sshProbe k] }
        else
          let attempts := sshAttempts + 1
          let ev2 : List Event := if attempts ≤ 5 then [Event.subStep step] else []
          let rest := monitorGo ping ssh step timeout fuel (k + 1) pingSuccess attempts res1
          { ok := rest.ok, res := rest.res,
            events := ev1 ++ ev2 ++ rest.events,
            calls := [Call.pingProbe k, Call.sshProbe k] ++ rest.calls }
      else
        let rest := monitorGo ping ssh step timeout fuel (k + 1) pingSuccess sshAttempts res1
        { ok := rest.ok, res := rest.res,
          events := ev1 ++ rest.events,
          calls := [Call.pingProbe k] ++ rest.calls }
    else
      { ok := false, res := { res with total_downtime := timeout },
        events := [Event.stepComplete step EventStatus.failed], calls := [] }

/-- Output of `monitor_device_reboot`: `Except.error` models the raised
`RebootTimeoutError` and carries the telemetry dictionary embedded in its
message by `format_reboot_timeout_error`. -/
structure MonitorOut where
  result : Except MonitoringResult MonitoringResult
  events : List Event
  calls : List Call
deriving Repr

/-- `monitor_device_reboot` (run.py lines 589-672): initial grace sleep
(unobservable), then the polling loop; returns the telemetry on a successful
full-session probe and otherwise raises with the telemetry gathered so far.
The first three events are the `STEP_START` and the two initial `SUB_STEP`
messages. -/
def monitor_device_reboot (ping ssh : Nat → Bool) (step timeout : Nat) : MonitorOut :=
  let go := monitorGo ping ssh step timeout (timeout + 1) 0 false 0 {}
  { result := if go.ok then Except.ok go.res else Except.error go.res,
    events := [Event.stepStart step, Event.subStep step, Event.subStep step] ++ go.events,
    calls := go.calls }

/-- `format_reboot_timeout_error` (run.py lines 699-724).  Python truthiness:
a restore timestamp of `0` prints as never restored. -/
def format_reboot_timeout_error (hostname : String) (mres : MonitoringResult)
    (timeout : Nat) : String :=
  String.intercalate "\n"
    (["Device " ++ hostname ++ " did not become fully accessible after " ++
      toString timeout ++ " seconds",
      (match mres.ping_restored_time with
       | some t =>
         if t ≠ 0 then
           "✓ Ping connectivity was restored after " ++ toString t ++ " seconds"
         else "✗ Ping connectivity was never restored"
       | none => "✗ Ping connectivity was never restored"),
      (match mres.ssh_restored_time with
       | some t =>
         if t ≠ 0 then
           "✓ SSH connectivity was restored after " ++ toString t ++ " seconds"
         else "✗ SSH connectivity was never restored"
       | none => "✗ SSH connectivity was never restored"),
      "",
      "Troubleshooting steps:",
      "1. Check device console for boot errors",
      "2. Verify network connectivity to management interface",
      "3. Confirm device is not stuck in loader mode",
      "4. Consider manual intervention if device is accessible via console"])

/-! ## `verify_final_version` (run.py lines 1015-1075) -/

/-- The `verification_result` dictionary (device metadata not modelled). -/
structure VerificationResult where
  final_version : Option String := none
  version_match : Bool := false
  verification_attempts : Nat := 0
deriving DecidableEq, Repr

/-- Output of `verify_final_version`. -/
structure VerifyOut where
  result : Except UpErr VerificationResult
  events : List Event
  calls : List Call
deriving Repr

/-- The retry loop of `verify_final_version`: `remaining` attempts left,
`attempt` is the 0-based attempt index.  The final-attempt mismatch raise
happens inside the Python `try`, so both final-attempt failures are wrapped
by the outer `except` into the "failed after 3 attempts" message. -/
def verifyGo (session : Nat → Except String (Option String)) (target : String)
    (step : Nat) : Nat → Nat → VerificationResult → VerifyOut
  | 0, _, res => { result := Except.ok res, events := [], calls := [] }
  | remaining + 1, attempt, res =>
    let res1 := { res with verification_attempts := attempt + 1 }
    match session attempt with
    | Except.ok v =>
      let res2 := { res1 with final_version := v }
      if v = some target then
        { result := Except.ok { res2 with version_match := true },
          events := [], calls := [Call.verifySession attempt] }
      else if remaining = 0 then
        { result := Except.error (UpErr.versionMismatchError
            ("Version verification failed after 3 attempts: " ++
             "Version mismatch after 3 attempts. Expected: " ++ target ++
             ", Found: " ++ optVersion v)),
          events := [], calls := [Call.verifySession attempt] }
      else
        let rest := verifyGo session target step remaining (attempt + 1) res2
        { result := rest.result, events := Event.subStep step :: rest.events,
          calls := Call.verifySession attempt :: rest.calls }
    | Except.error e =>
      if remaining = 0 then
        { result := Except.error (UpErr.versionMismatchError
            ("Version verification failed after 3 attempts: " ++ e)),
          events := [], calls := [Call.verifySession attempt] }
      else
        let rest := verifyGo session target step remaining (attempt + 1) res1
        { result := rest.result, events := Event.subStep step :: rest.events,
          calls := Call.verifySession attempt :: rest.calls }

/-- `verify_final_version` with `max_attempts = 3`. -/
def verify_final_version (session : Nat → Except String (Option String))
    (target : String) (step : Nat) : VerifyOut :=
  verifyGo session target step 3 0 {}

/-! ## Section 10 of run.py: the per-device workflow -/

/-- Result of one device workflow: terminal status, emitted events, and the
trace of device interactions performed. -/
structure WorkOut where
  status : DeviceStatus
  events : List Event
  calls : List Call
deriving Repr

/-- `handle_upgrade_error` (run.py lines 1077-1101): mark the status FAILED,
emit `STEP_COMPLETE(FAILED)` for the current step, then one
`STEP_COMPLETE(FAILED)` for each of `STEPS_PER_DEVICE - (current - start)`
further steps. -/
def handle_upgrade_error (status : DeviceStatus) (e : UpErr)
    (current_step start_step : Nat) : DeviceStatus × List Event :=
  ({ status with
       phase := UpgradePhase.failed,
       message := e.typeName ++ ": " ++ e.text,
       error := some e.text,
       error_type := some e.typeName },
   Event.stepComplete current_step EventStatus.failed ::
     (List.range (steps_per_device - (current_step - start_step))).map
       (fun i => Event.stepComplete (current_step + i + 1) EventStatus.failed))

/-- The downgrade warning recorded by the workflow (run.py lines 833-834). -/
def downgrade_warning (current target : String) : String :=
  "DOWNGRADE OPERATION: " ++ current ++ " → " ++ target ++
  ". This will downgrade the device to an older software version."

/-- Phases 4-6 of `upgrade_device` (run.py lines 859-957): installation,
reboot monitoring, final verification.  `st` is the device status after the
version-analysis step completed; the returned events and calls are the suffix
for steps `start_step+3 .. start_step+5`.  The best-effort
`perform_preinstallation_checks` never raises; a failed reboot acknowledgement
is swallowed (run.py lines 882-888), so neither branches. -/
def run_install_phase (env : DeviceEnv) (st : DeviceStatus)
    (hostname target_version : String) (start_step : Nat)
    (action : VersionAction) : WorkOut :=
  let s := start_step
  let action_verb := if action = VersionAction.upgrade then "Upgrading" else "Downgrading"
  let st7 := { st with phase := UpgradePhase.installing,
                       message := action_verb ++ " device software" }
  let evPre := [Event.stepStart (s + 3), Event.subStep (s + 3),
                Event.subStep (s + 3), Event.subStep (s + 3)]
  if !env.validatePackage then
    let he := handle_upgrade_error st7
      (UpErr.installationError
        "Software package validation failed - image may be corrupted") (s + 3) s
    { status := he.1, events := evPre ++ he.2,
      calls := [Call.preChecks, Call.validatePackage] }
  else if !env.installResult then
    let he := handle_upgrade_error st7
      (UpErr.installationError "Installation failed. Check device logs for details.")
      (s + 3) s
    { status := he.1, events := evPre ++ [Event.subStep (s + 3)] ++ he.2,
      calls := [Call.preChecks, Call.validatePackage, Call.installPackage] }
  else
    let st8 := { st7 with phase := UpgradePhase.rebooting,
                          message := "Device reboot in progress" }
    let ev4 := evPre ++ [Event.subStep (s + 3), Event.subStep (s + 3),
                         Event.stepComplete (s + 3) EventStatus.completed]
    let st9 := { st8 with phase := UpgradePhase.probing,
                          message := "Monitoring device reboot" }
    let m := monitor_device_reboot env.ping env.ssh (s + 4) default_reboot_timeout
    match m.result with
    | Except.error mres =>
      let he := handle_upgrade_error st9
        (UpErr.rebootTimeoutError
          (format_reboot_timeout_error hostname mres default_reboot_timeout)) (s + 4) s
      { status := he.1, events := ev4 ++ m.events ++ he.2,
        calls := [Call.preChecks, Call.validatePackage, Call.installPackage,
                  Call.reboot] ++ m.calls }
    | Except.ok _ =>
      let st10 := { st9 with phase := UpgradePhase.verifying,
                             message := "Verifying upgrade success" }
      let v := verify_final_version env.verifySession target_version (s + 5)
      match v.result with
      | Except.error e =>
        let he := handle_upgrade_error st10 e (s + 5) s
        { status := he.1,
          events := ev4 ++ m.events ++ [Event.stepStart (s + 5)] ++ v.events ++ he.2,
          calls := [Call.preChecks, Call.validatePackage, Call.installPackage,
                    Call.reboot] ++ m.calls ++ v.calls }
      | Except.ok vr =>
        let st11 := { st10 with final_version := vr.final_version }
        if vr.version_match then
          let st12 := { st11 with
                          phase := UpgradePhase.completed,
                          message := "Upgrade successful - Version: " ++
                            optVersion vr.final_version,
                          success := true }
          { status := st12,
            events := ev4 ++ m.events ++ [Event.stepStart (s + 5)] ++ v.events ++
                      [Event.stepComplete (s + 5) EventStatus.completed],
            calls := [Call.preChecks, Call.validatePackage, Call.installPackage,
                      Call.reboot] ++ m.calls ++ v.calls }
        else
          let he := handle_upgrade_error st11
            (UpErr.versionMismatchError
              ("Version verification failed. Expected: " ++ target_version ++
               ", Found: " ++ optVersion vr.final_version)) (s + 5) s
          { status := he.1,
            events := ev4 ++ m.events ++ [Event.stepStart (s + 5)] ++ v.events ++ he.2,
            calls := [Call.preChecks, Call.validatePackage, Call.installPackage,
                      Call.reboot] ++ m.calls ++ v.calls }

/-- `upgrade_device` (run.py lines 730-957): the full per-device workflow.
Phase 1 connects (`establish_connection_with_retry`, wrapped into a
`ConnectionError` on failure), phase 2 validates the image (the validator
emits its own `STEP_START`, a scanning `SUB_STEP`, and its own
`STEP_COMPLETE`, failed or completed, before raising), phase 3 analyses the
version and applies the downgrade policy gate, and phases 4-6 run in
`run_install_phase`.  Every exception funnels into `handle_upgrade_error`
and the `DeviceStatus` is returned, never re-raised. -/
def upgrade_device (env : DeviceEnv) (hostname target_version : String)
    (start_step : Nat) (allow_downgrade : Bool) : WorkOut :=
  let s := start_step
  let status0 : DeviceStatus := { hostname := hostname, target_version := target_version }
  let st1 := { status0 with phase := UpgradePhase.connecting,
                            message := "Establishing device connection" }
  match env.connect with
  | Except.error e =>
    let he := handle_upgrade_error st1
      (UpErr.connectionError ("Failed to connect after 3 attempts. Last error: " ++ e)) s s
    { status := he.1, events := Event.stepStart s :: he.2, calls := [Call.connect] }
  | Except.ok ver =>
    let st2 := { st1 with initial_version := some ver, final_version := some ver }
    let ev1 := [Event.stepStart s, Event.subStep s,
                Event.stepComplete s EventStatus.completed]
    let st3 := { st2 with phase := UpgradePhase.validatingImage,
                          message := "Validating software image" }
    match env.validateImage with
    | Except.error e =>
      let evV := [Event.stepStart (s + 1), Event.subStep (s + 1),
                  Event.stepComplete (s + 1) EventStatus.failed]
      let he := handle_upgrade_error st3 (UpErr.imageValidationError e) (s + 1) s
      { status := he.1, events := ev1 ++ evV ++ he.2,
        calls := [Call.connect, Call.validateImage] }
    | Except.ok _ =>
      let evV := [Event.stepStart (s + 1), Event.subStep (s + 1),
                  Event.stepComplete (s + 1) EventStatus.completed]
      let st4 := { st3 with phase := UpgradePhase.analyzingVersion,
                            message := "Analyzing version requirements" }
      let va := analyze_version_compatibility ver target_version
      let st5 := { st4 with version_action := va.action,
                            warnings := st4.warnings ++ va.warnings }
      if va.action = VersionAction.maintain then
        let st6 := { st5 with phase := UpgradePhase.skipped,
                              message := "Device already on target version",
                              success := true }
        let evSkip := (List.range (steps_per_device - ((s + 2) - s + 1))).map
          (fun i => Event.stepComplete (s + 2 + i + 1) EventStatus.skipped)
        { status := st6,
          events := ev1 ++ evV ++
                    [Event.stepStart (s + 2),
                     Event.stepComplete (s + 2) EventStatus.completed] ++ evSkip,
          calls := [Call.connect, Call.validateImage] }
      else
        let gate : Except UpErr (DeviceStatus × List Event) :=
          if va.action = VersionAction.downgrade then
            if allow_downgrade = false then
              Except.error (UpErr.policyViolationError
                ("Downgrade operation blocked by policy. Current version " ++ ver ++
                 " is newer than target " ++ target_version ++
                 ". Use --allow-downgrade to override this policy."))
            else
              Except.ok
                ({ st5 with
                     warnings := st5.warnings ++
                       [downgrade_warning ver target_version] },
                 [Event.versionWarning (s + 2)])
          else Except.ok (st5, [])
        match gate with
        | Except.error e =>
          let he := handle_upgrade_error st5 e (s + 2) s
          { status := he.1,
            events := ev1 ++ evV ++ [Event.stepStart (s + 2)] ++ he.2,
            calls := [Call.connect, Call.validateImage] }
        | Except.ok g =>
          let rest := run_install_phase env g.1 hostname target_version s va.action
          { status := rest.status,
            events := ev1 ++ evV ++ [Event.stepStart (s + 2)] ++ g.2 ++
                      [Event.stepComplete (s + 2) EventStatus.completed] ++
                      rest.events,
            calls := [Call.connect, Call.validateImage] ++ rest.calls }

/-! ## Section 11 of run.py: result aggregation (`execute_code_upgrade`,
lines 1220-1243) -/

/-- The overall operation status computed from the final statuses. -/
def overall_status (final_statuses : List DeviceStatus) : String :=
  let successful_devices := final_statuses.filter (fun st => st.success)
  let failed_devices := final_statuses.filter (fun st => !st.success)
  if failed_devices.length = 0 then "SUCCESS"
  else if 0 < successful_devices.length then "PARTIAL_SUCCESS"
  else "FAILED"

/-- The countable fields of the `OPERATION_COMPLETE` record (duration and
success-rate are wall-clock/floating-point and not modelled). -/
structure OperationComplete where
  status : String
  total_devices : Nat
  successful_devices : Nat
  failed_devices : Nat
  skipped_devices : Nat
deriving DecidableEq, Repr

/-- The `OPERATION_COMPLETE` event payload (run.py lines 1235-1243). -/
def operation_complete_record (final_statuses : List DeviceStatus) : OperationComplete :=
  { status := overall_status final_statuses,
    total_devices := final_statuses.length,
    successful_devices := (final_statuses.filter (fun st => st.success)).length,
    failed_devices := (final_statuses.filter (fun st => !st.success)).length,
    skipped_devices :=
      (final_statuses.filter (fun st => st.phase = UpgradePhase.skipped)).length }

/-! ## Concrete environments used by counterexamples and witnesses -/

/-- A device whose connection phase fails; later oracle fields are inert. -/
def envConnectFail : DeviceEnv :=
  { connect := Except.error "unreachable host",
    validateImage := Except.ok (),
    validatePackage := true,
    installResult := true,
    ping := fun _ => false,
    ssh := fun _ => false,
    verifySession := fun _ => Except.error "no session" }

/-- A fully healthy device reporting version `ver` before the upgrade and
`finalVer` afterwards. -/
def envHealthy (ver finalVer : String) : DeviceEnv :=
  { connect := Except.ok ver,
    validateImage := Except.ok (),
    validatePackage := true,
    installResult := true,
    ping := fun _ => true,
    ssh := fun _ => true,
    verifySession := fun _ => Except.ok (some finalVer) }

/-- Did an `Except` computation succeed. -/
def exceptIsOk {α β : Type} : Except α β → Bool
  | Except.ok _ => true
  | Except.error _ => false

/-- A version string that neither matches the version pattern nor contains at
least three integer runs: `parse_junos_version` collapses it to the zero
tuple. -/
def unparseableVersion (s : String) : Prop :=
  matchJunosPattern (cleanVersion s) = none ∧ (digitRuns (cleanVersion s)).length < 3

instance (s : String) : Decidable (unparseableVersion s) := by
  unfold unparseableVersion
  infer_instance

/-! ## Theorems

Helper lemmas are shared; each claim has exactly one named theorem. -/

/-- Lexicographic `<` is irreflexive. -/
theorem tupleLt_irrefl (a : Tup5) : tupleLt a a = false := by
  obtain ⟨a1, a2, a3, a4, a5⟩ := a
  simp [tupleLt]

/-- Lexicographic `<` is asymmetric. -/
theorem tupleLt_asymm (a b : Tup5) (h : tupleLt a b = true) : tupleLt b a = false := by
  obtain ⟨a1, a2, a3, a4, a5⟩ := a
  obtain ⟨b1, b2, b3, b4, b5⟩ := b
  simp only [tupleLt, Bool.or_eq_true, Bool.and_eq_true, decide_eq_true_eq,
    Bool.or_eq_false_iff, Bool.and_eq_false_iff, decide_eq_false_iff_not] at h ⊢
  omega

/-- C1: `compare_junos_versions` is the tuple-lexicographic three-way
comparison of the parsed 5-tuples — equal parses give MAINTAIN, a smaller
current gives UPGRADE, a larger current gives DOWNGRADE — and it is a total
function (the embedding never raises; the UNKNOWN exception branch of the
source is unreachable on the pure comparison).  The three concrete examples
of the claim are included. -/
theorem compare_junos_versions_spec :
    (∀ current target,
       parse_junos_version current = parse_junos_version target →
       compare_junos_versions current target = VersionAction.maintain) ∧
    (∀ current target,
       tupleLt (parse_junos_version current) (parse_junos_version target) = true →
       compare_junos_versions current target = VersionAction.upgrade) ∧
    (∀ current target,
       tupleLt (parse_junos_version target) (parse_junos_version current) = true →
       compare_junos_versions current target = VersionAction.downgrade) ∧
    compare_junos_versions "20.4R3-S1.8" "21.4R1.12" = VersionAction.upgrade ∧
    compare_junos_versions "21.4R1.12" "20.4R3-S1.8" = VersionAction.downgrade ∧
    compare_junos_versions "21.4R1.12" "21.4R1.12" = VersionAction.maintain := by
  refine ⟨?_, ?_, ?_, by decide, by decide, by decide⟩
  · intro c t h
    simp [compare_junos_versions, h]
  · intro c t h
    have hne : ¬ parse_junos_version c = parse_junos_version t := by
      intro he
      rw [he] at h
      simp [tupleLt_irrefl] at h
    simp [compare_junos_versions, hne, h]
  · intro c t h
    have hne : ¬ parse_junos_version c = parse_junos_version t := by
      intro he
      rw [he] at h
      simp [tupleLt_irrefl] at h
    have hlt := tupleLt_asymm _ _ h
    simp [compare_junos_versions, hne, hlt]

/-- C1 witness: the three implications applied at concrete version strings. -/
theorem compare_junos_versions_spec_witness :
    compare_junos_versions "1.2R3" "1.2R3.0" = VersionAction.maintain ∧
    compare_junos_versions "19.1R1" "21.2R2" = VersionAction.upgrade ∧
    compare_junos_versions "21.2R2" "19.1R1" = VersionAction.downgrade :=
  ⟨compare_junos_versions_spec.1 "1.2R3" "1.2R3.0" (by decide),
   compare_junos_versions_spec.2.1 "19.1R1" "21.2R2" (by decide),
   compare_junos_versions_spec.2.2.1 "21.2R2" "19.1R1" (by decide)⟩

/-- C9: comparing any version string with itself yields MAINTAIN. -/
theorem compare_junos_versions_self (v : String) :
    compare_junos_versions v v = VersionAction.maintain := by
  simp [compare_junos_versions]

/-- C8: `parse_junos_version` is total, always yields a 5-tuple of natural
numbers (by its type), and follows the three-branch structure of the source:
matched pattern components, else the first up-to-five integer runs padded
with zeros when at least three runs exist, else the zero tuple. -/
theorem parse_junos_version_spec :
    (∀ s t5, s ≠ "" → matchJunosPattern (cleanVersion s) = some t5 →
       parse_junos_version s = t5) ∧
    (∀ s, matchJunosPattern (cleanVersion s) = none →
       3 ≤ (digitRuns (cleanVersion s)).length →
       parse_junos_version s =
         padFive (((digitRuns (cleanVersion s)).take 5).map digitsToNat)) ∧
    (∀ s, matchJunosPattern (cleanVersion s) = none →
       (digitRuns (cleanVersion s)).length < 3 →
       parse_junos_version s = (0, 0, 0, 0, 0)) := by
  refine ⟨?_, ?_, ?_⟩
  · intro s t5 hs h
    simp [parse_junos_version, hs, h]
  · intro s h hl
    by_cases hs : s = ""
    · subst hs
      exact absurd hl (by decide)
    · simp [parse_junos_version, hs, h, hl]
  · intro s h hl
    by_cases hs : s = ""
    · subst hs
      simp [parse_junos_version]
    · have hl2 : ¬ 3 ≤ (digitRuns (cleanVersion s)).length := by omega
      simp [parse_junos_version, hs, h, hl2]

/-- C8 witness: the three branches applied at concrete strings. -/
theorem parse_junos_version_spec_witness :
    parse_junos_version "21.4R1.12" = (21, 4, 1, 0, 12) ∧
    parse_junos_version "v1b2c3" =
      padFive (((digitRuns (cleanVersion "v1b2c3")).take 5).map digitsToNat) ∧
    parse_junos_version "abc" = (0, 0, 0, 0, 0) :=
  ⟨parse_junos_version_spec.1 "21.4R1.12" (21, 4, 1, 0, 12) (by decide) (by decide),
   parse_junos_version_spec.2.1 "v1b2c3" (by decide) (by decide),
   parse_junos_version_spec.2.2 "abc" (by decide) (by decide)⟩

/-- C7 counterexample: for target `"a-b"` (two tokens) and candidate `"a"`,
only one token of the target appears in the candidate — fewer than the three
the claim demands — yet the code returns the candidate, because the source
threshold is `min(3, len(target_parts) // 2)`, a cap of 3, not the floor of 3
stated by the claim. -/
theorem find_similar_images_claim_counterexample :
    find_similar_images "a-b" ["a"] = ["a"] ∧
    find_similar_images_claim "a-b" ["a"] = [] ∧
    tokenMatches "a-b" "a" = 1 := by
  refine ⟨by decide, by decide, by decide⟩

/-- C7 (amended): the similar-image search returns exactly those candidates
in which at least `min(3, ⌊(number of target tokens)/2⌋)` of the target
tokens appear among the candidate tokens, case-insensitively, tokens being
the segments split on `-`, `_`, `.`. -/
theorem find_similar_images_mem (target image : String) (available : List String) :
    image ∈ find_similar_images target available ↔
      image ∈ available ∧
      min 3 ((imageTokens target).length / 2) ≤ tokenMatches target image := by
  simp [find_similar_images, List.mem_filter]

/-- Emptiness of a success-filter in terms of membership. -/
theorem filter_success_eq_nil_iff (l : List DeviceStatus) :
    (l.filter fun st => st.success) = [] ↔ ∀ st ∈ l, st.success = false := by
  rw [List.filter_eq_nil_iff]
  simp

/-- Emptiness of a failure-filter in terms of membership. -/
theorem filter_failure_eq_nil_iff (l : List DeviceStatus) :
    (l.filter fun st => !st.success) = [] ↔ ∀ st ∈ l, st.success = true := by
  rw [List.filter_eq_nil_iff]
  simp

/-- C6: for every (nonempty) final aggregate list, the coordinator reports
SUCCESS iff no status has `success = false`, PARTIAL_SUCCESS iff at least one
status succeeded and at least one failed, FAILED iff no status succeeded, and
the `OPERATION_COMPLETE` counts are the numbers of succeeded and failed
statuses.  The aggregate is nonempty in every run, since argument validation
requires at least one hostname and each host contributes exactly one status. -/
theorem overall_status_spec (l : List DeviceStatus) (hne : l ≠ []) :
    (overall_status l = "SUCCESS" ↔ ∀ st ∈ l, st.success = true) ∧
    (overall_status l = "PARTIAL_SUCCESS" ↔
       (∃ st ∈ l, st.success = true) ∧ (∃ st ∈ l, st.success = false)) ∧
    (overall_status l = "FAILED" ↔ ∀ st ∈ l, st.success = false) ∧
    (operation_complete_record l).successful_devices =
      (l.filter fun st => st.success).length ∧
    (operation_complete_record l).failed_devices =
      (l.filter fun st => !st.success).length := by
  refine ⟨?_, ?_, ?_, rfl, rfl⟩
  · by_cases h1 : (l.filter fun st => !st.success).length = 0
    · rw [List.length_eq_zero, filter_failure_eq_nil_iff] at h1
      simp only [overall_status]
      rw [if_pos]
      · simp only [true_iff]
        exact h1
      · rw [List.length_eq_zero, filter_failure_eq_nil_iff]
        exact h1
    · have h1f : ¬ ∀ st ∈ l, st.success = true := by
        intro hall
        exact h1 (by rw [List.length_eq_zero, filter_failure_eq_nil_iff]; exact hall)
      simp only [overall_status]
      rw [if_neg h1]
      by_cases h2 : 0 < (l.filter fun st => st.success).length
      · rw [if_pos h2]
        simp [h1f]
      · rw [if_neg h2]
        simp [h1f]
  · by_cases h1 : (l.filter fun st => !st.success).length = 0
    · rw [List.length_eq_zero, filter_failure_eq_nil_iff] at h1
      have hno : ¬ ∃ st ∈ l, st.success = false := by
        rintro ⟨st, hm, hf⟩
        rw [h1 st hm] at hf
        cases hf
      simp only [overall_status]
      rw [if_pos (by rw [List.length_eq_zero, filter_failure_eq_nil_iff]; exact h1)]
      simp [hno]
    · have hex1 : ∃ st ∈ l, st.success = false := by
        have hnil : (l.filter fun st => !st.success) ≠ [] := by
          intro hn
          exact h1 (by rw [hn]; rfl)
        rcases List.exists_mem_of_ne_nil _ hnil with ⟨st, hst⟩
        have := List.mem_filter.mp hst
        exact ⟨st, this.1, by simpa using this.2⟩
      simp only [overall_status]
      rw [if_neg h1]
      by_cases h2 : 0 < (l.filter fun st => st.success).length
      · have hex2 : ∃ st ∈ l, st.success = true := by
          have hnil : (l.filter fun st => st.success) ≠ [] := by
            intro hn
            rw [hn] at h2
            cases h2
          rcases List.exists_mem_of_ne_nil _ hnil with ⟨st, hst⟩
          have := List.mem_filter.mp hst
          exact ⟨st, this.1, this.2⟩
        rw [if_pos h2]
        simp [hex1, hex2]
      · have hno : ¬ ∃ st ∈ l, st.success = true := by
          rintro ⟨st, hm, hs⟩
          exact h2 (List.length_pos.mpr (fun hn => by
            have : st ∈ (l.filter fun st => st.success) := List.mem_filter.mpr ⟨hm, hs⟩
            rw [hn] at this
            cases this))
        rw [if_neg h2]
        simp only [String.reduceEq, false_iff]
        intro hc
        exact hno hc.1
  · by_cases h1 : (l.filter fun st => !st.success).length = 0
    · rw [List.length_eq_zero, filter_failure_eq_nil_iff] at h1
      have hnall : ¬ ∀ st ∈ l, st.success = false := by
        intro hall
        rcases List.exists_mem_of_ne_nil _ hne with ⟨st, hst⟩
        have ht := h1 st hst
        have hf := hall st hst
        rw [ht] at hf
        cases hf
      simp only [overall_status]
      rw [if_pos (by rw [List.length_eq_zero, filter_failure_eq_nil_iff]; exact h1)]
      simp [hnall]
    · simp only [overall_status]
      rw [if_neg h1]
      by_cases h2 : 0 < (l.filter fun st => st.success).length
      · have hex2 : ∃ st ∈ l, st.success = true := by
          have hnil : (l.filter fun st => st.success) ≠ [] := by
            intro hn
            rw [hn] at h2
            cases h2
          rcases List.exists_mem_of_ne_nil _ hnil with ⟨st, hst⟩
          have := List.mem_filter.mp hst
          exact ⟨st, this.1, this.2⟩
        have hnall : ¬ ∀ st ∈ l, st.success = false := by
          intro hall
          rcases hex2 with ⟨st, hm, hs⟩
          have := hall st hm
          rw [this] at hs
          cases hs
        rw [if_pos h2]
        simp [hnall]
      · have hall : ∀ st ∈ l, st.success = false := by
          intro st hm
          by_contra hsf
          have hs : st.success = true := by
            cases hv : st.success
            · exact absurd hv hsf
            · rfl
          exact h2 (List.length_pos.mpr (fun hn => by
            have : st ∈ (l.filter fun st => st.success) := List.mem_filter.mpr ⟨hm, hs⟩
            rw [hn] at this
            cases this))
        rw [if_neg h2]
        simp only [true_iff]
        exact hall

/-- C6 witness: a one-element aggregate whose only device failed reports
FAILED. -/
theorem overall_status_spec_witness :
    overall_status [{ hostname := "d1", target_version := "21.4R1.12" }] = "FAILED" := by
  have h := overall_status_spec [{ hostname := "d1", target_version := "21.4R1.12" }]
    (by simp)
  exact h.2.2.1.mpr (by simp)

/-- A full-session probe is recorded only at iterations whose ping probe
succeeded: the loop only attempts SSH when ping currently holds. -/
theorem monitorGo_ssh_calls (ping ssh : Nat → Bool) (step timeout : Nat) :
    ∀ fuel k lastPing att res j,
      Call.sshProbe j ∈ (monitorGo ping ssh step timeout fuel k lastPing att res).calls →
      ping j = true := by
  intro fuel
  induction fuel with
  | zero =>
    intro k last att res j h
    simp [monitorGo] at h
  | succ fuel ih =>
    intro k last att res j h
    simp only [monitorGo] at h
    by_cases hc : monitor_interval * k < timeout
    · rw [if_pos hc] at h
      by_cases hp : ping k = true
      · by_cases hs : ssh k = true
        · simp [hp, hs] at h
          rw [h]
          exact hp
        · simp [hp, hs] at h
          rcases h with h | h
          · rw [h]
            exact hp
          · exact ih _ _ _ _ _ h
      · simp [hp] at h
        exact ih _ _ _ _ _ h
    · rw [if_neg hc] at h
      simp at h
/-- The loop succeeds iff some in-window iteration from `k` on has both a
successful ping probe and a successful SSH probe, provided the fuel covers
the whole window. -/
theorem monitorGo_ok_iff (ping ssh : Nat → Bool) (step timeout : Nat) :
    ∀ fuel k lastPing att res,
      timeout ≤ monitor_interval * (k + fuel) →
      ((monitorGo ping ssh step timeout fuel k lastPing att res).ok = true ↔
        ∃ j, k ≤ j ∧ monitor_interval * j < timeout ∧ ping j = true ∧ ssh j = true) := by
  intro fuel
  induction fuel with
  | zero =>
    intro k last att res hfuel
    simp only [monitorGo]
    constructor
    · intro h
      cases h
    · rintro ⟨j, hkj, hjt, -⟩
      simp only [monitor_interval] at hfuel hjt
      omega
  | succ fuel ih =>
    intro k last att res hfuel
    simp only [monitorGo]
    by_cases hc : monitor_interval * k < timeout
    · rw [if_pos hc]
      by_cases hp : ping k = true
      · by_cases hs : ssh k = true
        · simp [hp, hs]
          exact ⟨k, Nat.le_refl k, hc, hp, hs⟩
        · have hsb : ssh k = false := by
            simpa using hs
          simp only [hp, hsb]
          simp
          refine (ih (k + 1) _ _ _ ?_).trans ?_
          · simp only [monitor_interval] at hfuel ⊢
            omega
          · constructor
            · rintro ⟨j, hkj, hjt, hpj, hsj⟩
              exact ⟨j, by omega, hjt, hpj, hsj⟩
            · rintro ⟨j, hkj, hjt, hpj, hsj⟩
              refine ⟨j, ?_, hjt, hpj, hsj⟩
              rcases Nat.eq_or_lt_of_le hkj with rfl | hlt
              · rw [hsj] at hs
                exact absurd rfl hs
              · omega
      · have hpb : ping k = false := by
          simpa using hp
        simp only [hpb]
        simp
        refine (ih (k + 1) _ _ _ ?_).trans ?_
        · simp only [monitor_interval] at hfuel ⊢
          omega
        · constructor
          · rintro ⟨j, hkj, hjt, hpj, hsj⟩
            exact ⟨j, by omega, hjt, hpj, hsj⟩
          · rintro ⟨j, hkj, hjt, hpj, hsj⟩
            refine ⟨j, ?_, hjt, hpj, hsj⟩
            rcases Nat.eq_or_lt_of_le hkj with rfl | hlt
            · exact absurd hpj hp
            · omega
    · rw [if_neg hc]
      constructor
      · intro h
        cases h
      · rintro ⟨j, hkj, hjt, -⟩
        simp only [monitor_interval] at hc hjt
        omega

/-- On the timeout path the loop never sets the session-restore timestamp. -/
theorem monitorGo_ssh_restored (ping ssh : Nat → Bool) (step timeout : Nat) :
    ∀ fuel k lastPing att res,
      (monitorGo ping ssh step timeout fuel k lastPing att res).ok = false →
      (monitorGo ping ssh step timeout fuel k lastPing att res).res.ssh_restored_time =
        res.ssh_restored_time := by
  intro fuel
  induction fuel with
  | zero =>
    intro k last att res h
    simp [monitorGo]
  | succ fuel ih =>
    intro k last att res h
    simp only [monitorGo] at h ⊢
    by_cases hc : monitor_interval * k < timeout
    · rw [if_pos hc] at h ⊢
      by_cases hp : ping k = true
      · by_cases hs : ssh k = true
        · simp [hp, hs] at h
        · have hsb : ssh k = false := by
            simpa using hs
          simp only [hp, hsb] at h ⊢
          simp at h ⊢
          exact (ih _ _ _ _ h).trans (by split <;> rfl)
      · have hpb : ping k = false := by
          simpa using hp
        simp only [hpb] at h ⊢
        simp at h ⊢
        exact ih _ _ _ _ h
    · rw [if_neg hc]

/-- On the timeout path the low-level-restore timestamp ends up set iff it
was already set or some in-window ping probe from `k` on succeeds.  The
`lastPing` invariant reflects that a reachable previous iteration already
recorded the timestamp. -/
theorem monitorGo_ping_restored (ping ssh : Nat → Bool) (step timeout : Nat) :
    ∀ fuel k lastPing att res,
      timeout ≤ monitor_interval * (k + fuel) →
      (lastPing = true → res.ping_restored_time.isSome = true) →
      (monitorGo ping ssh step timeout fuel k lastPing att res).ok = false →
      ((monitorGo ping ssh step timeout fuel k lastPing att
          res).res.ping_restored_time.isSome = true ↔
        (res.ping_restored_time.isSome = true ∨
          ∃ j, k ≤ j ∧ monitor_interval * j < timeout ∧ ping j = true)) := by
  intro fuel
  induction fuel with
  | zero =>
    intro k last att res hfuel hinv h
    simp only [monitorGo]
    constructor
    · intro hsome
      exact Or.inl hsome
    · rintro (hsome | ⟨j, hkj, hjt, -⟩)
      · exact hsome
      · simp only [monitor_interval] at hfuel hjt
        omega
  | succ fuel ih =>
    intro k last att res hfuel hinv h
    simp only [monitorGo] at h ⊢
    by_cases hc : monitor_interval * k < timeout
    · rw [if_pos hc] at h ⊢
      by_cases hp : ping k = true
      · by_cases hs : ssh k = true
        · simp [hp, hs] at h
        · have hsb : ssh k = false := by
            simpa using hs
          cases hl : last with
          | false =>
            subst hl
            simp only [hp, hsb] at h ⊢
            simp at h ⊢
            constructor
            · intro hsome
              exact Or.inr ⟨k, Nat.le_refl k, hc, hp⟩
            · intro hsome
              exact (ih _ _ _ _ (by simp only [monitor_interval] at hfuel ⊢; omega)
                (fun _ => by simp) h).mpr (Or.inl (by simp))
          | true =>
            subst hl
            have hrsome := hinv rfl
            simp only [hp, hsb] at h ⊢
            simp at h ⊢
            constructor
            · intro hsome
              exact Or.inl hrsome
            · intro hsome
              exact (ih _ _ _ _ (by simp only [monitor_interval] at hfuel ⊢; omega)
                (fun _ => hrsome) h).mpr (Or.inl hrsome)
      · have hpb : ping k = false := by
          simpa using hp
        simp only [hpb] at h ⊢
        simp at h ⊢
        refine (ih _ _ _ _ (by simp only [monitor_interval] at hfuel ⊢; omega)
          (fun hx => absurd hx (by simp)) h).trans ?_
        constructor
        · rintro (hsome | ⟨j, hkj, hjt, hpj⟩)
          · exact Or.inl hsome
          · exact Or.inr ⟨j, by omega, hjt, hpj⟩
        · rintro (hsome | ⟨j, hkj, hjt, hpj⟩)
          · exact Or.inl hsome
          · refine Or.inr ⟨j, ?_, hjt, hpj⟩
            rcases Nat.eq_or_lt_of_le hkj with rfl | hlt
            · rw [hpb] at hpj
              cases hpj
            · omega
    · rw [if_neg hc] at h ⊢
      constructor
      · intro hsome
        exact Or.inl (by simpa using hsome)
      · rintro (hsome | ⟨j, hkj, hjt, -⟩)
        · simpa using hsome
        · simp only [monitor_interval] at hc hjt
          omega

/-- C5: the reboot monitor sleeps a fixed 60-second grace period, then polls
at a fixed 15-second interval while the timeout has not elapsed; a
full-session (SSH) probe is attempted only at iterations whose ping probe
succeeds; it returns successfully exactly when an attempted full-session
probe succeeds within the timeout; and otherwise it raises
`RebootTimeoutError` whose telemetry has a low-level-restore timestamp iff
some in-window ping probe succeeded, and never has a session-restore
timestamp. -/
theorem monitor_device_reboot_spec (ping ssh : Nat → Bool) (step timeout : Nat) :
    monitor_initial_wait = 60 ∧ monitor_interval = 15 ∧
    (∀ j, Call.sshProbe j ∈ (monitor_device_reboot ping ssh step timeout).calls →
       ping j = true) ∧
    (exceptIsOk (monitor_device_reboot ping ssh step timeout).result = true ↔
       ∃ j, monitor_interval * j < timeout ∧ ping j = true ∧ ssh j = true) ∧
    (∀ mres,
       (monitor_device_reboot ping ssh step timeout).result = Except.error mres →
       (mres.ping_restored_time.isSome = true ↔
          ∃ j, monitor_interval * j < timeout ∧ ping j = true) ∧
       mres.ssh_restored_time = none) := by
  have hfuel : timeout ≤ monitor_interval * (0 + (timeout + 1)) := by
    simp only [monitor_interval]
    omega
  refine ⟨rfl, rfl, ?_, ?_, ?_⟩
  · intro j h
    refine monitorGo_ssh_calls ping ssh step timeout (timeout + 1) 0 false 0 {} j ?_
    simpa [monitor_device_reboot] using h
  · have hiff := monitorGo_ok_iff ping ssh step timeout (timeout + 1) 0 false 0 {} hfuel
    simp only [monitor_device_reboot]
    cases hgo : (monitorGo ping ssh step timeout (timeout + 1) 0 false 0 {}).ok with
    | true =>
      rw [hgo] at hiff
      simp only [hgo, if_true, exceptIsOk, true_iff]
      rcases hiff.mp rfl with ⟨j, -, hjt, hpj, hsj⟩
      exact ⟨j, hjt, hpj, hsj⟩
    | false =>
      rw [hgo] at hiff
      simp only [hgo, Bool.false_eq_true, if_false, exceptIsOk, false_iff]
      rintro ⟨j, hjt, hpj, hsj⟩
      have := hiff.mpr ⟨j, Nat.zero_le j, hjt, hpj, hsj⟩
      cases this
  · intro mres hres
    simp only [monitor_device_reboot] at hres
    cases hgo : (monitorGo ping ssh step timeout (timeout + 1) 0 false 0 {}).ok with
    | true =>
      rw [hgo] at hres
      simp at hres
    | false =>
      rw [hgo] at hres
      simp only [Bool.false_eq_true, if_false, Except.error.injEq] at hres
      subst hres
      constructor
      · have hpr := monitorGo_ping_restored ping ssh step timeout (timeout + 1) 0 false 0 {}
          hfuel (fun hx => absurd hx (by simp)) hgo
        rw [hpr]
        constructor
        · rintro (hsome | ⟨j, -, hjt, hpj⟩)
          · simp at hsome
          · exact ⟨j, hjt, hpj⟩
        · rintro ⟨j, hjt, hpj⟩
          exact Or.inr ⟨j, Nat.zero_le j, hjt, hpj⟩
      · have hsr := monitorGo_ssh_restored ping ssh step timeout (timeout + 1) 0 false 0 {} hgo
        simpa using hsr

/-- C5 witness: a healthy device discharges the probe-order hypothesis, and a
dead device discharges the timeout branch at a concrete telemetry record. -/
theorem monitor_device_reboot_spec_witness :
    (fun _ : Nat => true) 0 = true ∧
    ({ total_downtime := 900 } : MonitoringResult).ssh_restored_time = none :=
  ⟨(monitor_device_reboot_spec (fun _ => true) (fun _ => true) 4 900).2.2.1 0 (by decide),
   ((monitor_device_reboot_spec (fun _ => false) (fun _ => false) 4 900).2.2.2.2
      { total_downtime := 900 } (by rfl)).2⟩

/-- An unparseable version string collapses to the zero tuple. -/
theorem parse_unparseable_eq_zero (s : String) (h : unparseableVersion s) :
    parse_junos_version s = (0, 0, 0, 0, 0) := by
  obtain ⟨hm, hl⟩ := h
  by_cases hs : s = ""
  · subst hs
    simp [parse_junos_version]
  · have hl2 : ¬ 3 ≤ (digitRuns (cleanVersion s)).length := by omega
    simp [parse_junos_version, hs, hm, hl2]

/-- Shared: when connection and image validation succeed and the version
comparison yields MAINTAIN, the workflow short-circuits: SKIPPED phase,
success, exactly the three completed steps plus three SKIPPED step
completions, and no device interaction beyond connect and validate. -/
theorem upgrade_device_maintain_out (env : DeviceEnv) (hostname target ver : String)
    (s : Nat) (ad : Bool)
    (hc : env.connect = Except.ok ver)
    (hv : env.validateImage = Except.ok ())
    (hm : compare_junos_versions ver target = VersionAction.maintain) :
    (upgrade_device env hostname target s ad).status.phase = UpgradePhase.skipped ∧
    (upgrade_device env hostname target s ad).status.success = true ∧
    (upgrade_device env hostname target s ad).events =
      [Event.stepStart s, Event.subStep s,
       Event.stepComplete s EventStatus.completed,
       Event.stepStart (s + 1), Event.subStep (s + 1),
       Event.stepComplete (s + 1) EventStatus.completed,
       Event.stepStart (s + 2),
       Event.stepComplete (s + 2) EventStatus.completed,
       Event.stepComplete (s + 3) EventStatus.skipped,
       Event.stepComplete (s + 4) EventStatus.skipped,
       Event.stepComplete (s + 5) EventStatus.skipped] ∧
    (upgrade_device env hostname target s ad).calls =
      [Call.connect, Call.validateImage] := by
  have hva : (analyze_version_compatibility ver target).action = VersionAction.maintain := by
    simp [analyze_version_compatibility, hm]
  refine ⟨?_, ?_, ?_, ?_⟩ <;>
      (unfold upgrade_device
       rw [hc, hv]
       simp only [hva, if_true])
  simp only [steps_per_device, Nat.add_sub_cancel_left]
  norm_num [List.range_succ]


/-- C3: for a device whose initial version compares equal to the target
(MAINTAIN), after a successful connect and image validation the workflow
short-circuits: the returned status has phase SKIPPED and success true, the
three steps after version analysis are reported SKIPPED (never executed),
and no installation, reboot or verification interaction is performed. -/
theorem maintain_short_circuit (env : DeviceEnv) (hostname target ver : String)
    (s : Nat) (ad : Bool)
    (hc : env.connect = Except.ok ver)
    (hv : env.validateImage = Except.ok ())
    (hm : compare_junos_versions ver target = VersionAction.maintain) :
    (upgrade_device env hostname target s ad).status.phase = UpgradePhase.skipped ∧
    (upgrade_device env hostname target s ad).status.success = true ∧
    (upgrade_device env hostname target s ad).events =
      [Event.stepStart s, Event.subStep s,
       Event.stepComplete s EventStatus.completed,
       Event.stepStart (s + 1), Event.subStep (s + 1),
       Event.stepComplete (s + 1) EventStatus.completed,
       Event.stepStart (s + 2),
       Event.stepComplete (s + 2) EventStatus.completed,
       Event.stepComplete (s + 3) EventStatus.skipped,
       Event.stepComplete (s + 4) EventStatus.skipped,
       Event.stepComplete (s + 5) EventStatus.skipped] ∧
    (upgrade_device env hostname target s ad).calls =
      [Call.connect, Call.validateImage] :=
  upgrade_device_maintain_out env hostname target ver s ad hc hv hm

/-- C3 witness: a healthy device already on the target version. -/
theorem maintain_short_circuit_witness :
    (upgrade_device (envHealthy "21.4R1.12" "21.4R1.12") "d1" "21.4R1.12" 1
        false).status.phase = UpgradePhase.skipped ∧
    (upgrade_device (envHealthy "21.4R1.12" "21.4R1.12") "d1" "21.4R1.12" 1
        false).status.success = true :=
  ⟨(maintain_short_circuit (envHealthy "21.4R1.12" "21.4R1.12") "d1" "21.4R1.12"
      "21.4R1.12" 1 false rfl rfl (by decide)).1,
   (maintain_short_circuit (envHealthy "21.4R1.12" "21.4R1.12") "d1" "21.4R1.12"
      "21.4R1.12" 1 false rfl rfl (by decide)).2.1⟩

/-- Shared: the install phase always begins with the pre-installation checks,
whatever the later outcomes. -/
theorem run_install_phase_preChecks (env : DeviceEnv) (st : DeviceStatus)
    (hostname target : String) (s : Nat) (action : VersionAction) :
    Call.preChecks ∈ (run_install_phase env st hostname target s action).calls := by
  unfold run_install_phase
  cases hvp : env.validatePackage with
  | false => simp [hvp]
  | true =>
    cases hir : env.installResult with
    | false => simp [hvp, hir]
    | true =>
      simp only [hvp, hir]
      cases hm2 : (monitor_device_reboot env.ping env.ssh (s + 4)
          default_reboot_timeout).result with
      | error mres => simp [hm2]
      | ok mr =>
        cases hv2 : (verify_final_version env.verifySession target (s + 5)).result with
        | error e => simp [hm2, hv2]
        | ok vr =>
          cases hvm : vr.version_match with
          | false => simp [hm2, hv2, hvm]
          | true => simp [hm2, hv2, hvm]

/-- Shared: the install, monitoring and verification phases never touch the
warnings list. -/
theorem run_install_phase_warnings (env : DeviceEnv) (st : DeviceStatus)
    (hostname target : String) (s : Nat) (action : VersionAction) :
    (run_install_phase env st hostname target s action).status.warnings =
      st.warnings := by
  unfold run_install_phase
  cases hvp : env.validatePackage with
  | false => simp [hvp, handle_upgrade_error]
  | true =>
    cases hir : env.installResult with
    | false => simp [hvp, hir, handle_upgrade_error]
    | true =>
      simp only [hvp, hir]
      cases hm2 : (monitor_device_reboot env.ping env.ssh (s + 4)
          default_reboot_timeout).result with
      | error mres => simp [hm2, handle_upgrade_error]
      | ok mr =>
        cases hv2 : (verify_final_version env.verifySession target (s + 5)).result with
        | error e => simp [hm2, hv2, handle_upgrade_error]
        | ok vr =>
          cases hvm : vr.version_match with
          | false => simp [hm2, hv2, hvm, handle_upgrade_error]
          | true => simp [hm2, hv2, hvm, handle_upgrade_error]

/-- C4: when the version comparison is DOWNGRADE, a run without the
allow-downgrade flag fails with `PolicyViolationError` before any
installation interaction (the trace stops at connect and validate), while a
run with the flag records the downgrade warning and proceeds into the
installation phase. -/
theorem downgrade_policy_spec (env : DeviceEnv) (hostname target ver : String)
    (s : Nat)
    (hc : env.connect = Except.ok ver)
    (hv : env.validateImage = Except.ok ())
    (hd : compare_junos_versions ver target = VersionAction.downgrade) :
    ((upgrade_device env hostname target s false).status.success = false ∧
     (upgrade_device env hostname target s false).status.error_type =
       some "PolicyViolationError" ∧
     (upgrade_device env hostname target s false).status.phase = UpgradePhase.failed ∧
     (upgrade_device env hostname target s false).calls =
       [Call.connect, Call.validateImage]) ∧
    (downgrade_warning ver target ∈
       (upgrade_device env hostname target s true).status.warnings ∧
     Call.preChecks ∈ (upgrade_device env hostname target s true).calls) := by
  have hva : (analyze_version_compatibility ver target).action =
      VersionAction.downgrade := by
    simp [analyze_version_compatibility, hd]
  constructor
  · refine ⟨?_, ?_, ?_, ?_⟩ <;>
      (unfold upgrade_device
       rw [hc, hv]
       simp [hva, handle_upgrade_error, UpErr.typeName, UpErr.text])
  · constructor
    · unfold upgrade_device
      rw [hc, hv]
      simp [hva, run_install_phase_warnings]
    · unfold upgrade_device
      rw [hc, hv]
      simp [hva, run_install_phase_preChecks]

/-- C4 witness: a device on 21.4R1.12 asked to go to 20.4R3-S1.8. -/
theorem downgrade_policy_spec_witness :
    (upgrade_device (envHealthy "21.4R1.12" "20.4R3-S1.8") "d1" "20.4R3-S1.8" 1
        false).status.error_type = some "PolicyViolationError" ∧
    downgrade_warning "21.4R1.12" "20.4R3-S1.8" ∈
      (upgrade_device (envHealthy "21.4R1.12" "20.4R3-S1.8") "d1" "20.4R3-S1.8" 1
        true).status.warnings :=
  ⟨(downgrade_policy_spec (envHealthy "21.4R1.12" "20.4R3-S1.8") "d1" "20.4R3-S1.8"
      "21.4R1.12" 1 rfl rfl (by decide)).1.2.1,
   (downgrade_policy_spec (envHealthy "21.4R1.12" "20.4R3-S1.8") "d1" "20.4R3-S1.8"
      "21.4R1.12" 1 rfl rfl (by decide)).2.1⟩

/-- C2: evaluation of the workflow at a device whose connection phase raises,
with `start_step = 1`.  The status is returned with `success = false`
(nothing re-raised), and a `STEP_COMPLETE(FAILED)` is emitted for the failing
step — but `handle_upgrade_error` computes `remaining = STEPS_PER_DEVICE -
(current - start)` without the `+ 1` used by the MAINTAIN skip loop, so the
device emits `STEPS_PER_DEVICE + 1 = 7` STEP_COMPLETE events, the last at
step 7, outside the device range 1..6. -/
theorem upgrade_device_error_emits_extra_step :
    (upgrade_device envConnectFail "device1" "21.4R1.12" 1 false).status.success =
      false ∧
    (upgrade_device envConnectFail "device1" "21.4R1.12" 1 false).status.error_type =
      some "ConnectionError" ∧
    ((upgrade_device envConnectFail "device1" "21.4R1.12" 1 false).events.filter
        isStepComplete).length = steps_per_device + 1 ∧
    Event.stepComplete 7 EventStatus.failed ∈
      (upgrade_device envConnectFail "device1" "21.4R1.12" 1 false).events := by
  refine ⟨by decide, by decide, by decide, by decide⟩

/-- C10: two distinct unparseable version strings both parse to the zero
tuple, so the comparison returns MAINTAIN and a workflow seeing the first as
the device version and the second as the target short-circuits to SKIPPED
with success — garbage versions look like an up-to-date device. -/
theorem unparseable_versions_short_circuit (env : DeviceEnv)
    (s1 s2 hostname : String) (s : Nat) (ad : Bool)
    (_hne : s1 ≠ s2)
    (h1 : unparseableVersion s1)
    (h2 : unparseableVersion s2)
    (hc : env.connect = Except.ok s1)
    (hv : env.validateImage = Except.ok ()) :
    parse_junos_version s1 = (0, 0, 0, 0, 0) ∧
    parse_junos_version s2 = (0, 0, 0, 0, 0) ∧
    compare_junos_versions s1 s2 = VersionAction.maintain ∧
    (upgrade_device env hostname s2 s ad).status.phase = UpgradePhase.skipped ∧
    (upgrade_device env hostname s2 s ad).status.success = true := by
  have hp1 := parse_unparseable_eq_zero s1 h1
  have hp2 := parse_unparseable_eq_zero s2 h2
  have hcmp : compare_junos_versions s1 s2 = VersionAction.maintain := by
    simp [compare_junos_versions, hp1, hp2]
  have hout := upgrade_device_maintain_out env hostname s2 s1 s ad hc hv hcmp
  exact ⟨hp1, hp2, hcmp, hout.1, hout.2.1⟩

/-- C10 witness: the distinct garbage strings "abc" and "x1y2". -/
theorem unparseable_versions_short_circuit_witness :
    parse_junos_version "abc" = (0, 0, 0, 0, 0) ∧
    parse_junos_version "x1y2" = (0, 0, 0, 0, 0) ∧
    compare_junos_versions "abc" "x1y2" = VersionAction.maintain ∧
    (upgrade_device (envHealthy "abc" "abc") "d1" "x1y2" 1 false).status.phase =
      UpgradePhase.skipped ∧
    (upgrade_device (envHealthy "abc" "abc") "d1" "x1y2" 1 false).status.success =
      true :=
  unparseable_versions_short_circuit (envHealthy "abc" "abc") "abc" "x1y2" "d1" 1 false
    (by decide) (by decide) (by decide) rfl rfl

end CodeUpgrade
